import Mathlib

/-!
Verification of the Kanjiten learning-progress backend
(`src/Backend/server.js`) against its natural-language specification.

The JavaScript handlers are shallowly embedded: a JSON body field that may
be absent is an `Option`; JavaScript `x || d` defaulting is modelled by the
`jsOr*` helpers (falsy values are `undefined`/`null` = `none`, the number
`0`, the empty string, and `false`); calendar dates are integers counting
days, so `yesterday = today - 1`. Server-side timestamp columns
(`updated_at`, and the clock value written to `last_review` by the single
update handler) carry no logic and are taken as parameters or omitted.
-/

namespace Kanjiten

/-- JavaScript `v || d` for an optional number field: `undefined`/`null`
and `0` are falsy and yield the default. -/
def jsOrInt (v : Option Int) (d : Int) : Int :=
  match v with
  | none => d
  | some x => if x = 0 then d else x

/-- JavaScript `v || d` for an optional rational (float) field. -/
def jsOrRat (v : Option ℚ) (d : ℚ) : ℚ :=
  match v with
  | none => d
  | some x => if x = 0 then d else x

/-- JavaScript `v || d` for an optional string field: `undefined`/`null`
and the empty string are falsy and yield the default. -/
def jsOrStr (v : Option String) (d : String) : String :=
  match v with
  | none => d
  | some s => if s = "" then d else s

/-- JavaScript `v || false` for an optional boolean field. -/
def jsOrFalse (v : Option Bool) : Bool :=
  match v with
  | some b => b
  | none => false

/-- JavaScript `v || null` for an optional string field: the empty string
collapses to `null`. -/
def jsStrOrNull (v : Option String) : Option String :=
  match v with
  | some s => if s = "" then none else some s
  | none => none

/-- One row of the `user_kanji_progress` table, keyed by
`(user_id, kanji_id)`.  The server-stamped `updated_at` column is omitted
(pure clock value, no logic). -/
structure ProgressRow where
  user_id : String
  kanji_id : Nat
  learned : Bool
  in_review : Bool
  srs_interval : Int
  ease_factor : ℚ
  consecutive_correct : Int
  total_reviews : Int
  correct_reviews : Int
  last_review : Option String
  next_review : Option String
  mnemonic : Option String
deriving DecidableEq, Repr

/-- Request body of `POST /api/progress/update`
(`server.js:820`): every field except `kanji_id` may be absent. -/
structure ProgressUpdateBody where
  kanji_id : Nat
  learned : Option Bool
  in_review : Option Bool
  srs_interval : Option Int
  ease_factor : Option ℚ
  consecutive_correct : Option Int
  total_reviews : Option Int
  correct_reviews : Option Int
  next_review : Option String
  mnemonic : Option String
deriving DecidableEq, Repr

/-- The `POST /api/progress/update` handler (`server.js:818-854`): builds
`progressData` with `||` defaults and upserts it.  The handler body has no
validation branch: it never answers 400, so the result is always `ok`.
`now` is the server clock value written to `last_review`. -/
def progressUpdate (userId : String) (now : String) (b : ProgressUpdateBody) :
    Except String ProgressRow :=
  .ok
    { user_id := userId
      kanji_id := b.kanji_id
      learned := jsOrFalse b.learned
      in_review := jsOrFalse b.in_review
      srs_interval := jsOrInt b.srs_interval 1
      ease_factor := jsOrRat b.ease_factor 2.5
      consecutive_correct := jsOrInt b.consecutive_correct 0
      total_reviews := jsOrInt b.total_reviews 0
      correct_reviews := jsOrInt b.correct_reviews 0
      last_review := some now
      next_review := jsStrOrNull b.next_review
      mnemonic := jsStrOrNull b.mnemonic }

/-- One entry value of the `kanjiProgressData` array submitted to
`POST /api/progress/bulk-update` (`server.js:609-623`). -/
structure BulkFields where
  learned : Option Bool
  inReview : Option Bool
  interval : Option Int
  ease : Option ℚ
  consecutiveCorrect : Option Int
  totalReviews : Option Int
  correctReviews : Option Int
  lastReview : Option String
  nextReview : Option String
  mnemonic : Option String
deriving DecidableEq, Repr

/-- The per-entry transform of the bulk handler (`server.js:609-623`):
`([kanjiId, progressData]) => ({...})` with `||` defaults.  `kanji_id` is
the `parseInt` of the submitted identifier, modelled as a `Nat` key. -/
def bulkRow (userId : String) (e : Nat × BulkFields) : ProgressRow :=
  { user_id := userId
    kanji_id := e.1
    learned := jsOrFalse e.2.learned
    in_review := jsOrFalse e.2.inReview
    srs_interval := jsOrInt e.2.interval 1
    ease_factor := jsOrRat e.2.ease 2.5
    consecutive_correct := jsOrInt e.2.consecutiveCorrect 0
    total_reviews := jsOrInt e.2.totalReviews 0
    correct_reviews := jsOrInt e.2.correctReviews 0
    last_review := jsStrOrNull e.2.lastReview
    next_review := jsStrOrNull e.2.nextReview
    mnemonic := jsStrOrNull e.2.mnemonic }

/-- The progress store: the `user_kanji_progress` table as a map from the
unique key `(user_id, kanji_id)` to at most one row. -/
def ProgressStore : Type := String × Nat → Option ProgressRow

/-- Modelled from the spec: the upsert-by-key of the external store collaborator (spec section 4.1 and 6; the source delegates to
`supabase.upsert` with `onConflict: user_id,kanji_id`).  Exactly one row
exists afterward for the key; other keys are untouched. -/
def storeUpsert (s : ProgressStore) (r : ProgressRow) : ProgressStore :=
  fun k => if k = (r.user_id, r.kanji_id) then some r else s k

/-- Modelled from the spec: a multi-row upsert applies each row as an
independent upsert in submission order (spec section 4.2). -/
def storeUpsertAll (s : ProgressStore) (rs : List ProgressRow) : ProgressStore :=
  rs.foldl storeUpsert s

/-- The `kanjiProgressData` value of a bulk request body: absent (or
otherwise falsy), present but not an array, or an array of entries. -/
inductive BulkPayload where
  | absent
  | notArray
  | arr (entries : List (Nat × BulkFields))
deriving DecidableEq, Repr

/-- Outcome of the bulk handler: HTTP status, the `updated` count of the
success response, and the resulting store. -/
structure BulkOutcome where
  status : Nat
  updated : Option Nat
  store : ProgressStore

/-- The `POST /api/progress/bulk-update` handler (`server.js:598-644`):
rejects a missing or non-array `kanjiProgressData` with 400 before any
write, otherwise maps the entries through `bulkRow` and upserts them all,
answering `updated: kanjiProgressData.length`. -/
def bulkUpdate (userId : String) (p : BulkPayload) (s : ProgressStore) : BulkOutcome :=
  match p with
  | .absent => ⟨400, none, s⟩
  | .notArray => ⟨400, none, s⟩
  | .arr l => ⟨200, some l.length, storeUpsertAll s (l.map (bulkRow userId))⟩

/-- Fields of the last entry of the batch carrying the given item
identifier, if any: an occurrence later in the list shadows earlier ones. -/
def lastOccurrence (l : List (Nat × BulkFields)) (id : Nat) : Option BulkFields :=
  match l with
  | [] => none
  | e :: rest =>
    match lastOccurrence rest id with
    | some f => some f
    | none => if e.1 = id then some e.2 else none

/-- One row of the `user_streaks` table.  `last_review_date` is a calendar
date modelled as a day number, so yesterday is `today - 1`. -/
structure StreakState where
  daily_streak : Int
  last_review_date : Int
deriving DecidableEq, Repr

/-- Outcome of the streak handler: the `streak` value of the response and
the row upserted into `user_streaks`; `none` means the handler returned
early without writing (the same-day branch, `server.js:562-564`). -/
structure StreakOutcome where
  streak : Int
  write : Option StreakState
deriving DecidableEq, Repr

/-- The `POST /api/streak/update` handler (`server.js:543-595`):
`newStreak` starts at 1; a stored row with `last_review_date = today`
returns the stored streak without writing; `last_review_date = today - 1`
increments; anything else leaves the reset value 1; every non-early-return
path upserts `{daily_streak: newStreak, last_review_date: today}`. -/
def recordReview (cur : Option StreakState) (today : Int) : StreakOutcome :=
  match cur with
  | some s =>
    if s.last_review_date = today then ⟨s.daily_streak, none⟩
    else if s.last_review_date = today - 1 then
      ⟨s.daily_streak + 1, some ⟨s.daily_streak + 1, today⟩⟩
    else ⟨1, some ⟨1, today⟩⟩
  | none => ⟨1, some ⟨1, today⟩⟩

/-- The streak state after the handler ran: an upserted row replaces the
stored one, an early return leaves it unchanged. -/
def applyWrite (cur : Option StreakState) (w : Option StreakState) : Option StreakState :=
  match w with
  | some s => some s
  | none => cur

/-- One row of the `user_settings` table; every column is nullable. -/
structure SettingsRow where
  profile_name : Option String
  max_level : Option Int
  jlpt_level : Option String
  max_interval : Option Int
  show_progress : Option Bool
  show_drawing : Option Bool
  show_study_progress : Option Bool
  default_question_mode : Option String
  dark_mode : Option Bool
  language : Option String
deriving DecidableEq, Repr

/-- The fully-populated settings object returned by `GET /api/settings`. -/
structure ResolvedSettings where
  profileName : String
  maxLevel : Int
  jlptLevel : String
  maxInterval : Int
  showProgress : Bool
  showDrawing : Bool
  showStudyProgress : Bool
  defaultQuestionMode : String
  darkMode : Bool
  language : String
deriving DecidableEq, Repr

/-- The `defaultSettings` object of `GET /api/settings`
(`server.js:664-675`); `username` is `req.user.username`, which feeds the
`profileName` default through `|| "User"`. -/
def defaultSettings (username : Option String) : ResolvedSettings :=
  { profileName := jsOrStr username "User"
    maxLevel := 10
    jlptLevel := "all"
    maxInterval := 180
    showProgress := true
    showDrawing := true
    showStudyProgress := true
    defaultQuestionMode := "meaning-first"
    darkMode := false
    language := "en" }

/-- The resolution step of the `GET /api/settings` handler (`server.js:650-696`):
no stored row yields `defaultSettings`; otherwise string and number columns
resolve through `||` (so `null`, `0` and the empty string fall back to the
default) and boolean columns through `!== null ? value : default`. -/
def getSettings (username : Option String) (data : Option SettingsRow) : ResolvedSettings :=
  match data with
  | none => defaultSettings username
  | some d =>
    { profileName := jsOrStr d.profile_name (defaultSettings username).profileName
      maxLevel := jsOrInt d.max_level (defaultSettings username).maxLevel
      jlptLevel := jsOrStr d.jlpt_level (defaultSettings username).jlptLevel
      maxInterval := jsOrInt d.max_interval (defaultSettings username).maxInterval
      showProgress := d.show_progress.getD (defaultSettings username).showProgress
      showDrawing := d.show_drawing.getD (defaultSettings username).showDrawing
      showStudyProgress := d.show_study_progress.getD (defaultSettings username).showStudyProgress
      defaultQuestionMode := jsOrStr d.default_question_mode (defaultSettings username).defaultQuestionMode
      darkMode := d.dark_mode.getD (defaultSettings username).darkMode
      language := jsOrStr d.language (defaultSettings username).language }

/-- Request body of `PUT /api/settings` (`server.js:702-713`): every field
may be absent. -/
structure SettingsBody where
  profileName : Option String
  maxLevel : Option Int
  jlptLevel : Option String
  maxInterval : Option Int
  showProgress : Option Bool
  showDrawing : Option Bool
  showStudyProgress : Option Bool
  defaultQuestionMode : Option String
  darkMode : Option Bool
  language : Option String
deriving DecidableEq, Repr

/-- The guard of `PUT /api/settings` (`server.js:716`):
`language && !["en", "ja"].includes(language)` — a falsy value (absent or
the empty string) short-circuits the check to false. -/
def languageInvalid (v : Option String) : Bool :=
  match v with
  | some l => l != "" && !(l == "en" || l == "ja")
  | none => false

/-- A column of the upsert payload: a field that is `undefined` in the
JavaScript object is dropped from the payload, and on conflict the store
updates only the columns present, keeping the stored value for the rest;
on first insert an absent column is null. -/
def mergeField {α : Type} (payload : Option α) (old : Option α) : Option α :=
  match payload with
  | some v => some v
  | none => old

/-- The stored value of one column, null when no row exists. -/
def persisted {α : Type} (old : Option SettingsRow) (f : SettingsRow → Option α) : Option α :=
  match old with
  | some r => f r
  | none => none

/-- The `PUT /api/settings` handler (`server.js:699-756`): validates the
language guard, then upserts `settingsData`, whose columns are the body
fields passed through unchanged — except `language`, which is
`language || "en"` and therefore always present in the payload.  `old` is
the stored row the upsert merges into. -/
def putSettings (b : SettingsBody) (old : Option SettingsRow) :
    Except String SettingsRow :=
  if languageInvalid b.language then
    .error "Invalid language"
  else
    .ok
      { profile_name := mergeField b.profileName (persisted old (fun r => r.profile_name))
        max_level := mergeField b.maxLevel (persisted old (fun r => r.max_level))
        jlpt_level := mergeField b.jlptLevel (persisted old (fun r => r.jlpt_level))
        max_interval := mergeField b.maxInterval (persisted old (fun r => r.max_interval))
        show_progress := mergeField b.showProgress (persisted old (fun r => r.show_progress))
        show_drawing := mergeField b.showDrawing (persisted old (fun r => r.show_drawing))
        show_study_progress :=
          mergeField b.showStudyProgress (persisted old (fun r => r.show_study_progress))
        default_question_mode :=
          mergeField b.defaultQuestionMode (persisted old (fun r => r.default_question_mode))
        dark_mode := mergeField b.darkMode (persisted old (fun r => r.dark_mode))
        language := some (jsOrStr b.language "en") }

/-- The stored settings row after the handler ran: unchanged when it
answered 400. -/
def putSettingsStore (b : SettingsBody) (old : Option SettingsRow) : Option SettingsRow :=
  match putSettings b old with
  | .ok r => some r
  | .error _ => old

/-- Claim C4: if the stored streak state has `last_review_date = D`, the
handler performs no write and returns the stored `dailyStreak`; hence two
consecutive `recordReview` calls with the same date `D` return the same
streak value both times. -/
theorem C4_same_day_idempotent (D : Int) :
    (∀ s : StreakState, s.last_review_date = D →
      recordReview (some s) D = ⟨s.daily_streak, none⟩) ∧
    (∀ cur : Option StreakState,
      (recordReview (applyWrite cur (recordReview cur D).write) D).streak
        = (recordReview cur D).streak) := by
  constructor
  · intro s h
    simp [recordReview, h]
  · intro cur
    match cur with
    | none => simp [recordReview, applyWrite]
    | some s =>
      by_cases h1 : s.last_review_date = D
      · simp [recordReview, applyWrite, h1]
      · by_cases h2 : s.last_review_date = D - 1
        · simp [recordReview, applyWrite, h1, h2]
        · simp [recordReview, applyWrite, h1, h2]

/-- Witness for C4 at day 20: a stored state reviewed on day 20 is
returned unchanged with no write, and a repeated call starting from
streak 3 on day 19 returns the same streak both times. -/
theorem C4_same_day_idempotent_witness :
    recordReview (some ⟨4, 20⟩) 20 = ⟨4, none⟩ ∧
    (recordReview (applyWrite (some ⟨3, 19⟩) (recordReview (some ⟨3, 19⟩) 20).write) 20).streak
      = (recordReview (some ⟨3, 19⟩) 20).streak :=
  ⟨(C4_same_day_idempotent 20).1 ⟨4, 20⟩ rfl,
   (C4_same_day_idempotent 20).2 (some ⟨3, 19⟩)⟩

/-- Claim C5: a stored state whose `last_review_date` is exactly yesterday
yields `dailyStreak + 1`, persisted together with `last_review_date =
today`. -/
theorem C5_consecutive_day_increment (s : StreakState) (today : Int)
    (h : s.last_review_date = today - 1) :
    recordReview (some s) today
      = ⟨s.daily_streak + 1, some ⟨s.daily_streak + 1, today⟩⟩ := by
  have hne : s.last_review_date ≠ today := by omega
  simp [recordReview, hne, h]

/-- Witness for C5, the example of the spec: streak 3 last extended on day
5, reviewed on day 6, becomes 4. -/
theorem C5_consecutive_day_increment_witness :
    recordReview (some ⟨3, 5⟩) 6 = ⟨4, some ⟨4, 6⟩⟩ :=
  C5_consecutive_day_increment ⟨3, 5⟩ 6 (by decide)

/-- Claim C6: with no stored state, or a stored `last_review_date` two or
more days in the past, or one in the future, the handler returns 1 and
persists `{dailyStreak := 1, lastReviewDate := today}`. -/
theorem C6_gap_resets (cur : Option StreakState) (today : Int)
    (h : cur = none ∨ ∃ s, cur = some s ∧
      (s.last_review_date ≤ today - 2 ∨ today < s.last_review_date)) :
    recordReview cur today = ⟨1, some ⟨1, today⟩⟩ := by
  rcases h with h | ⟨s, rfl, hgap⟩
  · subst h; rfl
  · have h1 : s.last_review_date ≠ today := by omega
    have h2 : s.last_review_date ≠ today - 1 := by omega
    simp [recordReview, h1, h2]

/-- Witness for C6, the example of the spec: streak 5 last extended on day
1, reviewed on day 10, resets to 1. -/
theorem C6_gap_resets_witness :
    recordReview (some ⟨5, 1⟩) 10 = ⟨1, some ⟨1, 10⟩⟩ :=
  C6_gap_resets (some ⟨5, 1⟩) 10 (Or.inr ⟨⟨5, 1⟩, rfl, Or.inl (by decide)⟩)

/-- Claim C8: bulk reconciliation answers the number of submitted entries
on success, and a missing or non-array batch is rejected with 400 before
any store write, leaving the store unchanged. -/
theorem C8_bulk_count_and_validation (u : String) (s : ProgressStore) :
    (∀ l : List (Nat × BulkFields),
      (bulkUpdate u (.arr l) s).status = 200 ∧
      (bulkUpdate u (.arr l) s).updated = some l.length) ∧
    ((bulkUpdate u .absent s).status = 400 ∧
     (bulkUpdate u .absent s).updated = none ∧
     (bulkUpdate u .absent s).store = s) ∧
    ((bulkUpdate u .notArray s).status = 400 ∧
     (bulkUpdate u .notArray s).updated = none ∧
     (bulkUpdate u .notArray s).store = s) :=
  ⟨fun _ => ⟨rfl, rfl⟩, ⟨rfl, rfl, rfl⟩, ⟨rfl, rfl, rfl⟩⟩

/-- Claim C9: resolving settings for a user with no stored row returns
every field populated from the documented defaults, with the display-name
fallback (the account username, defaulted to "User" when falsy) feeding
only the `profileName` field — every other field is the fixed constant. -/
theorem C9_defaults_resolution (fb : Option String) :
    getSettings fb none =
      { profileName := jsOrStr fb "User"
        maxLevel := 10
        jlptLevel := "all"
        maxInterval := 180
        showProgress := true
        showDrawing := true
        showStudyProgress := true
        defaultQuestionMode := "meaning-first"
        darkMode := false
        language := "en" } ∧
    (∀ name : String, name ≠ "" → (getSettings (some name) none).profileName = name) := by
  refine ⟨rfl, fun name h => ?_⟩
  simp [getSettings, defaultSettings, jsOrStr, h]

/-- Witness for C9 at the concrete username "tanaka". -/
theorem C9_defaults_resolution_witness :
    (getSettings (some "tanaka") none).profileName = "tanaka" :=
  (C9_defaults_resolution (some "tanaka")).2 "tanaka" (by decide)

/-- Claim C10: every persisted field that the handler resolves with `||`
(`profile_name`, `max_level`, `jlpt_level`, `max_interval`,
`default_question_mode`, `language`) is replaced by its default when it is
present but falsy — 0 for the number columns, the empty string for the
string columns — so a stored `max_level` of 0 resolves to 10, a stored
empty `profile_name` resolves to the display-name fallback, a stored empty
`language` resolves to "en", and resolution is not the identity on all
present fields.  The six implications are independent: any one falsy field
is replaced regardless of the others. -/
theorem C10_falsy_persisted_replaced (fb : Option String) (row : SettingsRow) :
    (row.profile_name = some "" →
      (getSettings fb (some row)).profileName = jsOrStr fb "User") ∧
    (row.max_level = some 0 → (getSettings fb (some row)).maxLevel = 10) ∧
    (row.jlpt_level = some "" → (getSettings fb (some row)).jlptLevel = "all") ∧
    (row.max_interval = some 0 → (getSettings fb (some row)).maxInterval = 180) ∧
    (row.default_question_mode = some "" →
      (getSettings fb (some row)).defaultQuestionMode = "meaning-first") ∧
    (row.language = some "" → (getSettings fb (some row)).language = "en") := by
  refine ⟨fun h => ?_, fun h => ?_, fun h => ?_, fun h => ?_, fun h => ?_, fun h => ?_⟩ <;>
    simp [getSettings, defaultSettings, jsOrInt, jsOrStr, h]

/-- Witness row for C10: persisted settings in which every `||`-resolved
column is present but falsy. -/
def c10Row : SettingsRow :=
  { profile_name := some ""
    max_level := some 0
    jlpt_level := some ""
    max_interval := some 0
    show_progress := none
    show_drawing := none
    show_study_progress := none
    default_question_mode := some ""
    dark_mode := none
    language := some "" }

/-- Witness for C10 at the concrete username "alice" and row `c10Row`:
each falsy present column resolves to its default. -/
theorem C10_falsy_persisted_replaced_witness :
    (getSettings (some "alice") (some c10Row)).profileName
      = jsOrStr (some "alice") "User" ∧
    (getSettings (some "alice") (some c10Row)).maxLevel = 10 ∧
    (getSettings (some "alice") (some c10Row)).jlptLevel = "all" ∧
    (getSettings (some "alice") (some c10Row)).maxInterval = 180 ∧
    (getSettings (some "alice") (some c10Row)).defaultQuestionMode = "meaning-first" ∧
    (getSettings (some "alice") (some c10Row)).language = "en" :=
  ⟨(C10_falsy_persisted_replaced (some "alice") c10Row).1 rfl,
   (C10_falsy_persisted_replaced (some "alice") c10Row).2.1 rfl,
   (C10_falsy_persisted_replaced (some "alice") c10Row).2.2.1 rfl,
   (C10_falsy_persisted_replaced (some "alice") c10Row).2.2.2.1 rfl,
   (C10_falsy_persisted_replaced (some "alice") c10Row).2.2.2.2.1 rfl,
   (C10_falsy_persisted_replaced (some "alice") c10Row).2.2.2.2.2 rfl⟩

/-- Settings body with every field absent, used against claim C3. -/
def c3Body : SettingsBody :=
  { profileName := none
    maxLevel := none
    jlptLevel := none
    maxInterval := none
    showProgress := none
    showDrawing := none
    showStudyProgress := none
    defaultQuestionMode := none
    darkMode := none
    language := none }

/-- Stored settings row with Japanese language, used against claim C3. -/
def c3Old : SettingsRow :=
  { profile_name := some "Yuki"
    max_level := none
    jlpt_level := none
    max_interval := none
    show_progress := none
    show_drawing := none
    show_study_progress := none
    default_question_mode := none
    dark_mode := none
    language := some "ja" }

/-- Counterexample to claim C3 as stated: a save whose body omits every
field, run against a stored row whose language is "ja", still writes the
language column — the handler computes `language || "en"`, so the stored
"ja" is overwritten with "en" even though the input omitted the field. -/
theorem C3_counterexample :
    c3Body.language = none ∧
    putSettingsStore c3Body (some c3Old)
      = some { c3Old with language := some "en" } ∧
    c3Old.language = some "ja" :=
  ⟨rfl, rfl, rfl⟩

/-- Claim C3 amended: a settings save is a partial-update merge on every
field except `language` — each omitted field keeps the persisted value —
but the `language` column is always written, as `language || "en"`, so an
omitted language writes "en". -/
theorem C3_amended_partial_merge_except_language (b : SettingsBody)
    (old : Option SettingsRow) (r : SettingsRow)
    (h : putSettings b old = .ok r) :
    (b.profileName = none → r.profile_name = persisted old (fun x => x.profile_name)) ∧
    (b.maxLevel = none → r.max_level = persisted old (fun x => x.max_level)) ∧
    (b.jlptLevel = none → r.jlpt_level = persisted old (fun x => x.jlpt_level)) ∧
    (b.maxInterval = none → r.max_interval = persisted old (fun x => x.max_interval)) ∧
    (b.showProgress = none → r.show_progress = persisted old (fun x => x.show_progress)) ∧
    (b.showDrawing = none → r.show_drawing = persisted old (fun x => x.show_drawing)) ∧
    (b.showStudyProgress = none →
      r.show_study_progress = persisted old (fun x => x.show_study_progress)) ∧
    (b.defaultQuestionMode = none →
      r.default_question_mode = persisted old (fun x => x.default_question_mode)) ∧
    (b.darkMode = none → r.dark_mode = persisted old (fun x => x.dark_mode)) ∧
    r.language = some (jsOrStr b.language "en") := by
  rw [putSettings] at h
  split at h
  · exact absurd h (by simp)
  · injection h with h
    subst h
    exact ⟨fun hb => by simp [mergeField, hb], fun hb => by simp [mergeField, hb],
      fun hb => by simp [mergeField, hb], fun hb => by simp [mergeField, hb],
      fun hb => by simp [mergeField, hb], fun hb => by simp [mergeField, hb],
      fun hb => by simp [mergeField, hb], fun hb => by simp [mergeField, hb],
      fun hb => by simp [mergeField, hb], rfl⟩

/-- Body for the C3 amended witness: everything absent except a "ja"
language. -/
def c3wBody : SettingsBody :=
  { c3Body with language := some "ja" }

/-- Row produced by saving `c3wBody` with no prior settings. -/
def c3wRow : SettingsRow :=
  { profile_name := none
    max_level := none
    jlpt_level := none
    max_interval := none
    show_progress := none
    show_drawing := none
    show_study_progress := none
    default_question_mode := none
    dark_mode := none
    language := some "ja" }

/-- Witness for the amended C3: the language column of the saved row is
the truthy submitted value. -/
theorem C3_amended_partial_merge_except_language_witness :
    c3wRow.language = some (jsOrStr c3wBody.language "en") :=
  (C3_amended_partial_merge_except_language c3wBody none c3wRow rfl).2.2.2.2.2.2.2.2.2

/-- Settings body whose language is the empty string, used against
claim C7. -/
def c7Body : SettingsBody :=
  { c3Body with language := some "" }

/-- Stored settings row for the C7 counterexample. -/
def c7Old : SettingsRow :=
  { c3wRow with profile_name := some "Yuki" }

/-- Counterexample to claim C7 as stated: the empty string is present and
is not one of the two recognized values, yet the save succeeds — the guard
`language && ...` short-circuits on a falsy value — and it even writes
language "en" over the stored "ja". -/
theorem C7_counterexample :
    c7Body.language = some "" ∧
    ("" ∈ (["en", "ja"] : List String)) = False ∧
    putSettings c7Body (some c7Old)
      = .ok { c7Old with language := some "en" } :=
  ⟨rfl, by simp, rfl⟩

/-- Claim C7 amended: a settings save whose language field is present,
truthy (non-empty), and not one of the two recognized values "en" and
"ja", fails with a validation error and performs no store write, leaving
the persisted settings unchanged. -/
theorem C7_amended_truthy_language_validation (b : SettingsBody)
    (old : Option SettingsRow) (l : String) (hp : b.language = some l)
    (hne : l ≠ "") (hen : l ≠ "en") (hja : l ≠ "ja") :
    putSettings b old = .error "Invalid language" ∧
    putSettingsStore b old = old := by
  have hv : languageInvalid b.language = true := by
    simp [languageInvalid, hp, hne, hen, hja]
  have he : putSettings b old = .error "Invalid language" := by
    rw [putSettings, if_pos hv]
  exact ⟨he, by rw [putSettingsStore, he]⟩

/-- Body for the C7 amended witness: a save with language "fr". -/
def c7wBody : SettingsBody :=
  { c3Body with language := some "fr" }

/-- Witness for the amended C7: saving language "fr" with no prior row
fails and writes nothing. -/
theorem C7_amended_truthy_language_validation_witness :
    putSettings c7wBody none = .error "Invalid language" ∧
    putSettingsStore c7wBody none = none :=
  C7_amended_truthy_language_validation c7wBody none "fr" rfl (by decide)
    (by decide) (by decide)

/-- Progress body claiming 5 correct reviews out of 3 total, used against
claim C1. -/
def c1Body : ProgressUpdateBody :=
  { kanji_id := 42
    learned := none
    in_review := none
    srs_interval := none
    ease_factor := none
    consecutive_correct := none
    total_reviews := some 3
    correct_reviews := some 5
    next_review := none
    mnemonic := none }

/-- Row stored for `c1Body`, violating `correctReviews ≤ totalReviews`. -/
def c1Row : ProgressRow :=
  { user_id := "u1"
    kanji_id := 42
    learned := false
    in_review := false
    srs_interval := 1
    ease_factor := 2.5
    consecutive_correct := 0
    total_reviews := 3
    correct_reviews := 5
    last_review := some "t0"
    next_review := none
    mnemonic := none }

/-- Counterexample to claim C1 as stated: an update claiming 5 correct
reviews out of 3 total is accepted — the handler has no validation branch
— and the stored record has `correct_reviews > total_reviews`. -/
theorem C1_counterexample :
    progressUpdate "u1" "t0" c1Body = .ok c1Row ∧
    c1Row.total_reviews < c1Row.correct_reviews :=
  ⟨rfl, by decide⟩

/-- Claim C1 amended: every progress upsert, single or bulk entry, is
accepted without any counter validation; the stored counters are exactly
the submitted values with falsy input defaulted to 0 (and `ease` defaulted
to 2.5), so `correctReviews ≤ totalReviews` is not enforced. -/
theorem C1_amended_no_counter_validation (u now : String)
    (b : ProgressUpdateBody) (id : Nat) (f : BulkFields) :
    (∃ r, progressUpdate u now b = .ok r ∧
      r.total_reviews = jsOrInt b.total_reviews 0 ∧
      r.correct_reviews = jsOrInt b.correct_reviews 0 ∧
      r.ease_factor = jsOrRat b.ease_factor 2.5) ∧
    ((bulkRow u (id, f)).total_reviews = jsOrInt f.totalReviews 0 ∧
     (bulkRow u (id, f)).correct_reviews = jsOrInt f.correctReviews 0 ∧
     (bulkRow u (id, f)).ease_factor = jsOrRat f.ease 2.5) :=
  ⟨⟨_, rfl, rfl, rfl, rfl⟩, rfl, rfl, rfl⟩

theorem storeUpsertAll_cons (s : ProgressStore) (r : ProgressRow)
    (rs : List ProgressRow) :
    storeUpsertAll s (r :: rs) = storeUpsertAll (storeUpsert s r) rs := rfl

/-- Looking a key up after a bulk application yields the row built from
the last batch entry carrying that item identifier, or the previous
content of the store when the batch never mentions it. -/
theorem bulk_lookup (u : String) (l : List (Nat × BulkFields)) (id : Nat) :
    ∀ s : ProgressStore,
      storeUpsertAll s (l.map (bulkRow u)) (u, id)
        = match lastOccurrence l id with
          | some f => some (bulkRow u (id, f))
          | none => s (u, id) := by
  induction l with
  | nil => intro s; rfl
  | cons e rest ih =>
    intro s
    rw [List.map_cons, storeUpsertAll_cons, ih]
    cases hrest : lastOccurrence rest id with
    | some f => simp [lastOccurrence, hrest]
    | none =>
      simp only [lastOccurrence, hrest]
      by_cases he : e.1 = id
      · subst he
        simp [storeUpsert, bulkRow]
      · have hk : ((u, id) : String × Nat) ≠ (u, e.1) := by
          simp [Prod.ext_iff]
          exact Ne.symm he
        simp [storeUpsert, bulkRow, he, hk]

/-- An identifier absent from the batch has no last occurrence. -/
theorem lastOccurrence_eq_none (l : List (Nat × BulkFields)) (id : Nat)
    (h : id ∉ l.map Prod.fst) : lastOccurrence l id = none := by
  induction l with
  | nil => rfl
  | cons e rest ih =>
    rw [List.map_cons, List.mem_cons, not_or] at h
    rw [lastOccurrence, ih h.2]
    simp [Ne.symm h.1]

/-- The last occurrence over a concatenation is the one in the right part
when it exists, else the one in the left part. -/
theorem lastOccurrence_append (l₁ l₂ : List (Nat × BulkFields)) (id : Nat) :
    lastOccurrence (l₁ ++ l₂) id
      = match lastOccurrence l₂ id with
        | some f => some f
        | none => lastOccurrence l₁ id := by
  induction l₁ with
  | nil => cases h2 : lastOccurrence l₂ id <;> simp [h2, lastOccurrence]
  | cons e rest ih =>
    rw [List.cons_append, lastOccurrence, ih, lastOccurrence]
    cases h2 : lastOccurrence l₂ id <;> cases hr : lastOccurrence rest id <;> simp

/-- Claim C2: a batch containing two entries for the same item identifier
— with none after the second — leaves the store, at the key of that
identifier, holding the row built from the second (last) occurrence in
submission order. -/
theorem C2_last_occurrence_wins (u : String) (s : ProgressStore)
    (l₁ l₂ l₃ : List (Nat × BulkFields)) (id : Nat) (f₁ f₂ : BulkFields)
    (h3 : id ∉ l₃.map Prod.fst) :
    (bulkUpdate u (.arr (l₁ ++ (id, f₁) :: l₂ ++ (id, f₂) :: l₃)) s).store (u, id)
      = some (bulkRow u (id, f₂)) := by
  have hlast : lastOccurrence (l₁ ++ (id, f₁) :: l₂ ++ (id, f₂) :: l₃) id
      = some f₂ := by
    rw [lastOccurrence_append]
    rw [lastOccurrence]
    rw [lastOccurrence_append]
    rw [lastOccurrence]
    rw [lastOccurrence_eq_none l₃ id h3]
    simp
  show storeUpsertAll s ((l₁ ++ (id, f₁) :: l₂ ++ (id, f₂) :: l₃).map (bulkRow u)) (u, id)
      = some (bulkRow u (id, f₂))
  rw [bulk_lookup, hlast]

/-- The empty progress store. -/
def emptyStore : ProgressStore := fun _ => none

/-- First batch entry fields for the C2 witness: item learned. -/
def c2Fields1 : BulkFields :=
  { learned := some true
    inReview := none
    interval := none
    ease := none
    consecutiveCorrect := none
    totalReviews := none
    correctReviews := none
    lastReview := none
    nextReview := none
    mnemonic := none }

/-- Second batch entry fields for the C2 witness: same item, not
learned. -/
def c2Fields2 : BulkFields :=
  { c2Fields1 with learned := some false }

/-- Witness for C2: a batch with two entries for item 7, learned then not
learned, leaves the row of the second entry in the store. -/
theorem C2_last_occurrence_wins_witness :
    (bulkUpdate "u1" (.arr [(7, c2Fields1), (7, c2Fields2)]) emptyStore).store ("u1", 7)
      = some (bulkRow "u1" (7, c2Fields2)) :=
  C2_last_occurrence_wins "u1" emptyStore [] [] [] 7 c2Fields1 c2Fields2 (by decide)

end Kanjiten
